import Mathlib

/-!
Formal model of the dredge_data core: geodetic-to-planar projection context,
time-window selection, the annotation registry, the tagging/export transform,
and the synchronized dual selection regions.  Timestamps are modelled as
rational seconds since the epoch; pandas tables are modelled as Lean lists of
records, and a table's extra (tag) columns as an association list from column
name to boolean column.  Python exceptions and early-return warning paths are
modelled with `Except` / error components.
-/

/-- Python's `str.strip()` on a string: drop whitespace from both ends. -/
def py_strip (s : String) : String :=
  String.mk (((s.data.dropWhile Char.isWhitespace).reverse.dropWhile Char.isWhitespace).reverse)

/-- Python's `int()` truncation toward zero on a rational
(`int((lon + 180) / 6)` in `convert_to_utm`). -/
def pyInt (q : ℚ) : ℤ :=
  if 0 ≤ q then ⌊q⌋ else ⌈q⌉

/-- One row of the loaded USBL position table as read by selection, the
registry and the export transform: the parsed UTC timestamp (seconds since
epoch), the optional `latitude`/`longitude` columns (read with
`.get('latitude', None)` in `save_annotation`; absent in the shipped CSV
schema, which has `latitude_deg`/`longitude_deg` instead), the projected
`easting`/`northing` columns added by `convert_to_utm`, and the optional
`beacon_name` column. -/
structure PosRecord where
  datetime : ℚ
  latitude : Option ℚ
  longitude : Option ℚ
  easting : ℚ
  northing : ℚ
  beacon_name : Option String
deriving DecidableEq, Repr

/-- One row of the loaded sensor table: parsed UTC timestamp plus named
numeric channels (a missing / NaN cell is `none`). -/
structure SensorRecord where
  datetime : ℚ
  channels : List (String × Option ℚ)
deriving DecidableEq, Repr

/-- The brush selection interval, as returned by `region.getRegion()`:
`(min_time, max_time)` in seconds since epoch. -/
structure Window where
  min_time : ℚ
  max_time : ℚ
deriving DecidableEq, Repr

/-- An annotation record exactly as assembled in `DredgeApp.save_annotation`. -/
structure Annotation where
  annotation_id : ℕ
  annotation_name : String
  start_datetime : ℚ
  end_datetime : ℚ
  start_lat : Option ℚ
  start_lon : Option ℚ
  end_lat : Option ℚ
  end_lon : Option ℚ
  start_easting : ℚ
  start_northing : ℚ
  end_easting : ℚ
  end_northing : ℚ
  utm_zone : ℤ
  num_usbl_points : ℕ
  notes : String
deriving DecidableEq, Repr

/-- The `DredgeApp` state read and written by the core operations: the loaded
position table, the annotation list, the monotone id counter (initialized to 1
in `__init__`), the beacon selector state (`none` models "All Beacons"), and
the projection zone. -/
structure AppState where
  usbl_df : List PosRecord
  annotations : List Annotation
  annotation_id_counter : ℕ
  beacon_filter : Option String
  utm_zone : ℤ
deriving DecidableEq, Repr

/-- A fresh application state: no annotations, id counter at 1. -/
def initState (usbl : List PosRecord) (bf : Option String) (z : ℤ) : AppState :=
  { usbl_df := usbl, annotations := [], annotation_id_counter := 1,
    beacon_filter := bf, utm_zone := z }

/-- The time-range membership test used uniformly in `on_region_changed`,
`save_annotation` and `export_annotated_data`:
`(datetime >= min_dt) & (datetime <= max_dt)`. -/
def regionMask (w : Window) (r : PosRecord) : Bool :=
  decide (w.min_time ≤ r.datetime) && decide (r.datetime ≤ w.max_time)

/-- The highlighted selection computed by `DredgeApp.on_region_changed`: the
time-range filter followed by the beacon filter when a specific beacon is
selected. -/
def highlightSelection (s : AppState) (w : Window) : List PosRecord :=
  let selected := s.usbl_df.filter (regionMask w)
  match s.beacon_filter with
  | none => selected
  | some b => selected.filter (fun r => decide (r.beacon_name = some b))

/-- The two warning paths of `save_annotation` that abort without touching the
registry: "No USBL points found in selected time range." and the empty-name
check after the dialog. -/
inductive SaveError
  | emptySelection
  | invalidName
deriving DecidableEq, Repr

/-- `DredgeApp.save_annotation` on an accepted dialog: filter the position
table by the time range only (no beacon filter), abort when the selection is
empty or the stripped name is empty, otherwise build the annotation from the
window endpoints, the first/last selected row (in table row order, via
`iloc[0]` / `iloc[-1]`), the selection count and the id counter, append it and
advance the counter. -/
def save_annotation (s : AppState) (w : Window) (name notes : String) :
    Except SaveError (AppState × Annotation) :=
  match s.usbl_df.filter (regionMask w) with
  | [] => Except.error SaveError.emptySelection
  | s0 :: rest =>
    if (py_strip name).isEmpty then Except.error SaveError.invalidName
    else
      let endPoint := (s0 :: rest).getLast (List.cons_ne_nil s0 rest)
      let ann : Annotation :=
        { annotation_id := s.annotation_id_counter
          annotation_name := py_strip name
          start_datetime := w.min_time
          end_datetime := w.max_time
          start_lat := s0.latitude
          start_lon := s0.longitude
          end_lat := endPoint.latitude
          end_lon := endPoint.longitude
          start_easting := s0.easting
          start_northing := s0.northing
          end_easting := endPoint.easting
          end_northing := endPoint.northing
          utm_zone := s.utm_zone
          num_usbl_points := (s0 :: rest).length
          notes := py_strip notes }
      Except.ok
        ({ s with annotations := s.annotations ++ [ann],
                  annotation_id_counter := s.annotation_id_counter + 1 }, ann)

/-- The `save_annotation` button handler as a state transition: on either
warning path the method returns early and `self` is left untouched. -/
def save_annotation_step (s : AppState) (w : Window) (name notes : String) :
    AppState × Option SaveError :=
  match save_annotation s w name notes with
  | Except.ok res => (res.1, none)
  | Except.error e => (s, some e)

/-- `DredgeApp.delete_annotation` on a confirmed dialog: pop the annotation at
the selected list index; the id counter is untouched. -/
def delete_annotation (s : AppState) (idx : ℕ) : AppState :=
  { s with annotations := s.annotations.eraseIdx idx }

/-- `DredgeApp.clear_annotations` on a confirmed dialog: empty the list; the
id counter is untouched. -/
def clear_annotations (s : AppState) : AppState :=
  { s with annotations := [] }

/-- A registry operation issued through the UI. -/
inductive RegistryOp
  | create (w : Window) (name notes : String)
  | delete (idx : ℕ)
  | clear
deriving DecidableEq, Repr

/-- Apply one registry operation; a failed create leaves the state unchanged. -/
def applyRegistryOp (s : AppState) : RegistryOp → AppState
  | RegistryOp.create w name notes =>
    match save_annotation s w name notes with
    | Except.ok res => res.1
    | Except.error _ => s
  | RegistryOp.delete idx => delete_annotation s idx
  | RegistryOp.clear => clear_annotations s

/-- Run a sequence of registry operations. -/
def runOps (s : AppState) (ops : List RegistryOp) : AppState :=
  ops.foldl applyRegistryOp s

/-- Whether a create operation will succeed: the selection is nonempty and the
stripped name is nonempty.  This does not depend on the registry contents. -/
def create_succeeds (usbl : List PosRecord) (w : Window) (name : String) : Bool :=
  !(usbl.filter (regionMask w)).isEmpty && !(py_strip name).isEmpty

/-- Number of successful creates in an operation sequence over a fixed
position table. -/
def successCount (usbl : List PosRecord) : List RegistryOp → ℕ
  | [] => 0
  | RegistryOp.create w name _ :: rest =>
    if create_succeeds usbl w name then successCount usbl rest + 1
    else successCount usbl rest
  | RegistryOp.delete _ :: rest => successCount usbl rest
  | RegistryOp.clear :: rest => successCount usbl rest

/-- The annotation ids handed out while running an operation sequence, in
order of creation. -/
def assignedIds (s : AppState) : List RegistryOp → List ℕ
  | [] => []
  | RegistryOp.create w name notes :: rest =>
    match save_annotation s w name notes with
    | Except.ok res => res.2.annotation_id :: assignedIds res.1 rest
    | Except.error _ => assignedIds s rest
  | RegistryOp.delete idx :: rest => assignedIds ( delete_annotation s idx) rest
  | RegistryOp.clear :: rest => assignedIds (clear_annotations s) rest

/-- Failure paths of `convert_to_utm` as observed at the load boundary: the
`KeyError` raised by indexing a missing `longitude_deg`/`latitude_deg` column
and the `IndexError` raised by `.iloc[0]` on an empty column.  Both are caught
by the `except` clause of `load_usbl_data`, which shows a message and returns
control; the spec names this taxonomy `ProjectionError`. -/
inductive ProjectionError
  | missingColumn (name : String)
  | emptyInput
deriving DecidableEq, Repr

/-- The raw USBL table as it stands when `convert_to_utm` runs: whether the
two coordinate columns exist, and their values (one entry per row). -/
structure RawUsblTable where
  hasLongitude : Bool
  hasLatitude : Bool
  longitudes : List ℚ
  latitudes : List ℚ
deriving DecidableEq, Repr

/-- Zone derivation of `convert_to_utm`: `int((lon + 180) / 6) + 1`. -/
def utm_zone_of (lon : ℚ) : ℤ :=
  pyInt ((lon + 180) / 6) + 1

/-- Hemisphere derivation of `convert_to_utm`:
`'north' if lat >= 0 else 'south'`; `true` models north. -/
def hemisphere_of (lat : ℚ) : Bool :=
  decide (0 ≤ lat)

/-- `DredgeApp.convert_to_utm` (also `debug.py` and `dual_data_viewer.py`,
which share the code verbatim): read the first row's longitude and latitude,
derive the zone and hemisphere, and build the transformer context.  Evaluation
order matches the Python lines: the `longitude_deg` column lookup, its
`.iloc[0]`, the `latitude_deg` column lookup, its `.iloc[0]`.  The
`self.usbl_df is None` guard (nothing loaded at all, silent return) is outside
this model.  Returns the projection context `(zone, isNorth)`. -/
def convert_to_utm (t : RawUsblTable) : Except ProjectionError (ℤ × Bool) :=
  if t.hasLongitude = false then Except.error (ProjectionError.missingColumn ("longitude_deg"))
  else
    match t.longitudes.head? with
    | none => Except.error ProjectionError.emptyInput
    | some lon =>
      if t.hasLatitude = false then Except.error (ProjectionError.missingColumn ("latitude_deg"))
      else
        match t.latitudes.head? with
        | none => Except.error ProjectionError.emptyInput
        | some lat => Except.ok (utm_zone_of lon, hemisphere_of lat)

/-- Whether an `Except` is on the error path. -/
def isExceptError {ε α : Type} : Except ε α → Bool
  | Except.error _ => true
  | Except.ok _ => false

/-- The boolean column computed for one annotation in
`export_annotated_data`:
`(datetime >= ann['start_datetime']) & (datetime <= ann['end_datetime'])`
over the full position table. -/
def tagColumn (a : Annotation) (usbl : List PosRecord) : List Bool :=
  usbl.map (fun r =>
    decide (a.start_datetime ≤ r.datetime) && decide (r.datetime ≤ a.end_datetime))

/-- pandas column assignment `df[col_name] = mask`: overwrite an existing
column of that name in place, else append a new column. -/
def setCol (cols : List (String × List Bool)) (nm : String) (v : List Bool) :
    List (String × List Bool) :=
  if cols.any (fun c => decide (c.1 = nm)) then
    cols.map (fun c => if c.1 = nm then (nm, v) else c)
  else cols ++ [(nm, v)]

/-- pandas column lookup by name. -/
def getCol (cols : List (String × List Bool)) (nm : String) : Option (List Bool) :=
  (cols.find? (fun c => decide (c.1 = nm))).map (fun c => c.2)

/-- The annotation columns added to the exported copy, one pandas assignment
per annotation in registry order. -/
def addAnnotationCols (usbl : List PosRecord) (anns : List Annotation) :
    List (String × List Bool) :=
  anns.foldl (fun cols a => setCol cols a.annotation_name (tagColumn a usbl)) []

/-- The guard path of `export_annotated_data`: "Please save at least one
annotation before exporting." -/
inductive ExportError
  | noAnnotations
deriving DecidableEq, Repr

/-- The two tables produced by `export_annotated_data`: the annotation
metadata table and the tagged copy of the position table (its rows plus the
added boolean columns). -/
structure ExportOut where
  metadata : List Annotation
  tagged_rows : List PosRecord
  tagged_cols : List (String × List Bool)
deriving DecidableEq, Repr

/-- `DredgeApp.export_annotated_data`: abort when no annotations exist,
otherwise write the metadata table and a copy of the full position table
(`usbl_export = self.usbl_df.copy()`) with one boolean column per annotation,
named after the annotation. -/
def export_annotated_data (s : AppState) : Except ExportError ExportOut :=
  if s.annotations.isEmpty then Except.error ExportError.noAnnotations
  else
    Except.ok
      { metadata := s.annotations
        tagged_rows := s.usbl_df
        tagged_cols := addAnnotationCols s.usbl_df s.annotations }

/-- `export_annotated_data` as a state transition: the method assigns nothing
to the stored tables or the registry, so the state component is `s` itself. -/
def export_annotated_data_step (s : AppState) :
    AppState × Except ExportError ExportOut :=
  (s, export_annotated_data s)

/-- A saved region of the legacy `DualDataViewer`
(`{name, start_time, end_time}`). -/
structure RegionInfo where
  name : String
  start_time : ℚ
  end_time : ℚ
deriving DecidableEq, Repr

/-- The `DualDataViewer` state touched by its export path: the two stored
tables (rows plus any tag columns previously assigned to them in place) and
the saved regions. -/
structure DualViewerState where
  usbl_records : List PosRecord
  usbl_extra_cols : List (String × List Bool)
  sensor_records : List SensorRecord
  sensor_extra_cols : List (String × List Bool)
  selected_regions : List RegionInfo
deriving DecidableEq, Repr

/-- `DualDataViewer.tag_data_with_regions`: for each saved region, assign a
`region_<name>` boolean column directly onto the stored `usbl_df` and
`sensor_df` (in-place mutation of the application's tables). -/
def tag_data_with_regions (s : DualViewerState) : DualViewerState :=
  { s with
    usbl_extra_cols := s.selected_regions.foldl
      (fun cols rg => setCol cols (("region_") ++ rg.name)
        (s.usbl_records.map (fun r =>
          decide (rg.start_time ≤ r.datetime) && decide (r.datetime ≤ rg.end_time))))
      s.usbl_extra_cols
    sensor_extra_cols := s.selected_regions.foldl
      (fun cols rg => setCol cols (("region_") ++ rg.name)
        (s.sensor_records.map (fun r =>
          decide (rg.start_time ≤ r.datetime) && decide (r.datetime ≤ rg.end_time))))
      s.sensor_extra_cols }

/-- `DualDataViewer.export_data`: warn and return unchanged when no region is
saved; otherwise call `tag_data_with_regions` (mutating the stored tables) and
write the now-tagged stored tables out. -/
def export_data (s : DualViewerState) :
    DualViewerState × Option ((List PosRecord × List (String × List Bool)) ×
      (List SensorRecord × List (String × List Bool))) :=
  if s.selected_regions.isEmpty then (s, none)
  else
    let t := tag_data_with_regions s
    (t, some ((t.usbl_records, t.usbl_extra_cols),
              (t.sensor_records, t.sensor_extra_cols)))

/-- One `LinearRegionItem`: its bounds and its Qt `signalsBlocked` flag. -/
structure RegionItem where
  lo : ℚ
  hi : ℚ
  blocked : Bool
deriving DecidableEq, Repr

/-- The state of the two synchronized brush regions, plus a counter of
`on_region_changed` (membership recomputation) invocations. -/
structure SyncState where
  region_1 : RegionItem
  region_2 : RegionItem
  recompute_count : ℕ
deriving DecidableEq, Repr

/-- A pending synchronous Qt signal delivery: a `setRegion` call on one of
the two regions, or a `sigRegionChanged` emission being handled by
`_sync_regions`. -/
inductive SigEvent
  | setRegion (targetIsOne : Bool) (lo hi : ℚ)
  | regionChanged (sourceIsOne : Bool)
deriving DecidableEq, Repr

/-- Synchronous signal dispatch for the linked regions.  `setRegion` updates
the target's bounds and, unless the target's signals are blocked, immediately
delivers `sigRegionChanged`, whose connected slot is `_sync_regions`: it
blocks the sibling's signals, copies the mover's bounds onto the sibling with
`setRegion`, unblocks, and calls `on_region_changed` once (counted).  The fuel
bounds the recursion depth; `none` models an unbounded re-entrant cascade. -/
def dispatchEvent : ℕ → SigEvent → SyncState → Option SyncState
  | 0, _, _ => none
  | Nat.succ fuel, SigEvent.setRegion tgt lo hi, st =>
    let st1 := if tgt then { st with region_1 := { st.region_1 with lo := lo, hi := hi } }
               else { st with region_2 := { st.region_2 with lo := lo, hi := hi } }
    if (if tgt then st1.region_1.blocked else st1.region_2.blocked) then some st1
    else dispatchEvent fuel (SigEvent.regionChanged tgt) st1
  | Nat.succ fuel, SigEvent.regionChanged src, st =>
    if src then
      let stB := { st with region_2 := { st.region_2 with blocked := true } }
      match dispatchEvent fuel (SigEvent.setRegion false st.region_1.lo st.region_1.hi) stB with
      | none => none
      | some st2 =>
        let stU := { st2 with region_2 := { st2.region_2 with blocked := false } }
        some { stU with recompute_count := stU.recompute_count + 1 }
    else
      let stB := { st with region_1 := { st.region_1 with blocked := true } }
      match dispatchEvent fuel (SigEvent.setRegion true st.region_2.lo st.region_2.hi) stB with
      | none => none
      | some st2 =>
        let stU := { st2 with region_1 := { st2.region_1 with blocked := false } }
        some { stU with recompute_count := stU.recompute_count + 1 }

/-- A user drag of one region: pyqtgraph moves the region's bounds and emits
`sigRegionChanged`, which is what a direct `setRegion` delivery models. -/
def userDragRegion (fuel : ℕ) (targetIsOne : Bool) (lo hi : ℚ) (st : SyncState) :
    Option SyncState :=
  dispatchEvent fuel (SigEvent.setRegion targetIsOne lo hi) st

/-- Modelled from the spec: the first matching position record ordered by
timestamp, as the spec's words for the source of an annotation's start
coordinates ("the first ... matching position record (ordered by
timestamp)").  Kept separate from `save_annotation`, which uses table row
order, so the two readings can be compared. -/
def firstMatchedByTimestamp (usbl : List PosRecord) (w : Window) : Option PosRecord :=
  (usbl.filter (regionMask w)).foldl
    (fun acc r =>
      match acc with
      | none => some r
      | some b => if r.datetime < b.datetime then some r else some b)
    none


/-- Modelled from the spec: the last matching position record ordered by
timestamp, the spec's source for an annotation's end coordinates. -/
def lastMatchedByTimestamp (usbl : List PosRecord) (w : Window) : Option PosRecord :=
  (usbl.filter (regionMask w)).foldl
    (fun acc r =>
      match acc with
      | none => some r
      | some b => if b.datetime ≤ r.datetime then some r else some b)
    none

/-- Observable outcome of a save: the error, or the resulting registry list,
counter value and created annotation (projecting away UI-only state such as
the beacon selector). -/
def saveOutcome (r : Except SaveError (AppState × Annotation)) :
    Except SaveError (List Annotation × ℕ × Annotation) :=
  r.map (fun p => (p.1.annotations, p.1.annotation_id_counter, p.2))

/-- Convenience constructor for a raw USBL table. -/
def rawTable (hasLon hasLat : Bool) (lons lats : List ℚ) : RawUsblTable :=
  { hasLongitude := hasLon, hasLatitude := hasLat, longitudes := lons, latitudes := lats }

/-- Convenience constructor for a position record. -/
def posRecord (t : ℚ) (e n : ℚ) (b : Option String) : PosRecord :=
  { datetime := t, latitude := none, longitude := none, easting := e, northing := n,
    beacon_name := b }

/-- Convenience constructor for an annotation with only identity, name and
time range populated (as relevant to the export transform). -/
def mkAnn (idn : ℕ) (nm : String) (t0 t1 : ℚ) : Annotation :=
  { annotation_id := idn, annotation_name := nm, start_datetime := t0, end_datetime := t1,
    start_lat := none, start_lon := none, end_lat := none, end_lon := none,
    start_easting := 0, start_northing := 0, end_easting := 0, end_northing := 0,
    utm_zone := 0, num_usbl_points := 0, notes := "" }

/-- A two-row position table that is not sorted by timestamp: the first row in
table order has the later timestamp. -/
def c4Table : List PosRecord :=
  [posRecord 10 100 1 none, posRecord 0 200 2 none]

/-- Fresh state loaded with the unsorted table. -/
def c4State : AppState :=
  initState c4Table none 18

/-- A window covering both rows of `c4Table`. -/
def c4Window : Window :=
  { min_time := 0, max_time := 10 }

/-- The annotation `save_annotation` actually builds over `c4Table`: start
coordinates from the first row in table order (timestamp 10), end coordinates
from the last row in table order (timestamp 0). -/
def c4Ann : Annotation :=
  { annotation_id := 1, annotation_name := "a", start_datetime := 0, end_datetime := 10,
    start_lat := none, start_lon := none, end_lat := none, end_lon := none,
    start_easting := 100, start_northing := 1, end_easting := 200, end_northing := 2,
    utm_zone := 18, num_usbl_points := 2, notes := "" }

/-- The state after the successful save over `c4Table`. -/
def c4ResState : AppState :=
  { c4State with annotations := [c4Ann], annotation_id_counter := 2 }

/-- A single position record at timestamp 7, inside two overlapping
annotation windows. -/
def c1Rec : PosRecord :=
  posRecord 7 0 0 none

/-- Annotation over the window [0, 10]. -/
def c1AnnA : Annotation :=
  mkAnn 1 ("A") 0 10

/-- Annotation over the overlapping window [5, 15]. -/
def c1AnnB : Annotation :=
  mkAnn 2 ("B") 5 15

/-- State holding the single record and the two overlapping annotations. -/
def c1State : AppState :=
  { usbl_df := [c1Rec], annotations := [c1AnnA, c1AnnB], annotation_id_counter := 3,
    beacon_filter := none, utm_zone := 0 }

/-- The export output over `c1State`. -/
def c1Out : ExportOut :=
  { metadata := [c1AnnA, c1AnnB], tagged_rows := [c1Rec],
    tagged_cols := addAnnotationCols [c1Rec] [c1AnnA, c1AnnB] }

/-- A `DualDataViewer` state with one stored position record, untagged
tables, and one saved region. -/
def c7Dual : DualViewerState :=
  { usbl_records := [posRecord 0 0 0 none], usbl_extra_cols := [],
    sensor_records := [], sensor_extra_cols := [],
    selected_regions := [{ name := "r", start_time := 0, end_time := 1 }] }

/-- A resting dual-region state: both regions unblocked. -/
def c9Sync : SyncState :=
  { region_1 := { lo := 0, hi := 1, blocked := false },
    region_2 := { lo := 2, hi := 3, blocked := false },
    recompute_count := 0 }

lemma save_ok_elim {s : AppState} {w : Window} {name notes : String}
    {res : AppState × Annotation}
    (h : save_annotation s w name notes = Except.ok res) :
    res.2.annotation_id = s.annotation_id_counter
    ∧ res.1.usbl_df = s.usbl_df
    ∧ res.1.annotation_id_counter = s.annotation_id_counter + 1
    ∧ res.1.annotations = s.annotations ++ [res.2] := by
  rcases hF : s.usbl_df.filter (regionMask w) with _ | ⟨s0, rest⟩
  · simp [ save_annotation, hF] at h
  · by_cases hN : (py_strip name).isEmpty
    · simp [ save_annotation, hF, hN] at h
    · simp [ save_annotation, hF, hN] at h
      subst h
      simp

lemma save_ok_cases {s : AppState} {w : Window} {name notes : String}
    {res : AppState × Annotation}
    (h : save_annotation s w name notes = Except.ok res) :
    create_succeeds s.usbl_df w name = true := by
  rcases hF : s.usbl_df.filter (regionMask w) with _ | ⟨s0, rest⟩
  · simp [ save_annotation, hF] at h
  · by_cases hN : (py_strip name).isEmpty
    · simp [ save_annotation, hF, hN] at h
    · simp [create_succeeds, hF, hN]

lemma save_error_cases {s : AppState} {w : Window} {name notes : String}
    {e : SaveError}
    (h : save_annotation s w name notes = Except.error e) :
    create_succeeds s.usbl_df w name = false := by
  rcases hF : s.usbl_df.filter (regionMask w) with _ | ⟨s0, rest⟩
  · simp [create_succeeds, hF]
  · by_cases hN : (py_strip name).isEmpty
    · simp [create_succeeds, hN]
    · simp [ save_annotation, hF, hN] at h

lemma runOps_cons (s : AppState) (op : RegistryOp) (rest : List RegistryOp) :
    runOps s (op :: rest) = runOps (applyRegistryOp s op) rest := rfl

lemma assignedIds_spec (ops : List RegistryOp) :
    ∀ s : AppState,
      assignedIds s ops = List.range' s.annotation_id_counter (successCount s.usbl_df ops)
      ∧ (runOps s ops).annotation_id_counter
          = s.annotation_id_counter + successCount s.usbl_df ops := by
  induction ops with
  | nil => intro s; simp [assignedIds, successCount, runOps]
  | cons op rest ih =>
    intro s
    cases op with
    | create w name notes =>
      rcases hS : save_annotation s w name notes with e | res
      · have hcs := save_error_cases hS
        have hrun : runOps s (RegistryOp.create w name notes :: rest) = runOps s rest := by
          rw [runOps_cons]
          simp [applyRegistryOp, hS]
        constructor
        · simp [assignedIds, hS, successCount, hcs, (ih s).1]
        · rw [hrun, (ih s).2]
          simp [successCount, hcs]
      · have hcs := save_ok_cases hS
        obtain ⟨hid, husbl, hcnt, -⟩ := save_ok_elim hS
        have hrun : runOps s (RegistryOp.create w name notes :: rest)
            = runOps res.1 rest := by
          rw [runOps_cons]
          simp [applyRegistryOp, hS]
        constructor
        · have h1 := (ih res.1).1
          rw [husbl, hcnt] at h1
          simp [assignedIds, hS, successCount, hcs, h1, hid, List.range']
        · rw [hrun, (ih res.1).2, husbl, hcnt]
          simp [successCount, hcs]
          omega
    | delete idx =>
      have h1 := (ih ( delete_annotation s idx)).1
      have h2 := (ih ( delete_annotation s idx)).2
      simp [ delete_annotation] at h1 h2
      constructor
      · simp [assignedIds, successCount, h1, delete_annotation]
      · rw [runOps_cons]
        simp [applyRegistryOp, successCount, h2, delete_annotation]
    | clear =>
      have h1 := (ih ( clear_annotations s)).1
      have h2 := (ih ( clear_annotations s)).2
      simp [clear_annotations] at h1 h2
      constructor
      · simp [assignedIds, successCount, h1, clear_annotations]
      · rw [runOps_cons]
        simp [applyRegistryOp, successCount, h2, clear_annotations]

/-- C2: starting from a fresh registry, the annotation ids handed out by any
sequence of create/delete/clear operations are exactly 1, 2, 3, ... — one per
successful create, strictly increasing, never reused — and the id counter ends
at 1 plus the number of successful creates: delete and clear never reset it. -/
theorem annotation_ids_monotone_never_reused (usbl : List PosRecord)
    (bf : Option String) (z : ℤ) (ops : List RegistryOp) :
    assignedIds (initState usbl bf z) ops = List.range' 1 (successCount usbl ops)
  ∧ (assignedIds (initState usbl bf z) ops).Nodup
  ∧ (runOps (initState usbl bf z) ops).annotation_id_counter
      = 1 + successCount usbl ops := by
  refine ⟨(assignedIds_spec ops (initState usbl bf z)).1, ?_,
    (assignedIds_spec ops (initState usbl bf z)).2⟩
  rw [(assignedIds_spec ops (initState usbl bf z)).1]
  exact List.nodup_range' _ _

/-- C3: the selection membership test used by `on_region_changed` and
`save_annotation` is inclusive on both ends: a record matches iff
`window.start ≤ record.timestamp ≤ window.end`, and a record whose timestamp
equals either endpoint of a well-formed window is matched. -/
theorem window_membership_inclusive (w : Window) (r : PosRecord) :
    (regionMask w r = true ↔ w.min_time ≤ r.datetime ∧ r.datetime ≤ w.max_time)
  ∧ (r.datetime = w.min_time → w.min_time ≤ w.max_time → regionMask w r = true)
  ∧ (r.datetime = w.max_time → w.min_time ≤ w.max_time → regionMask w r = true) := by
  refine ⟨by simp [regionMask], ?_, ?_⟩
  · intro h1 h2
    simp [regionMask, h1, h2]
  · intro h1 h2
    simp [regionMask, h1, h2]

theorem window_membership_inclusive_witness :
    regionMask { min_time := 0, max_time := 10 }
      { datetime := 0, latitude := none, longitude := none,
        easting := 0, northing := 0, beacon_name := none } = true :=
  (window_membership_inclusive { min_time := 0, max_time := 10 }
    { datetime := 0, latitude := none, longitude := none,
      easting := 0, northing := 0, beacon_name := none }).2.1 rfl (by norm_num)

/-- C5: saving fails on the "no USBL points in range" path whenever no record
matches the window, fails on the "invalid name" path whenever a record matches
but the stripped name is empty, and every failure leaves the state — registry
and id counter included — exactly as it was. -/
theorem save_failure_paths_leave_registry_unchanged (s : AppState) (w : Window)
    (name notes : String) :
    (s.usbl_df.filter (regionMask w) = [] →
      save_annotation_step s w name notes = (s, some SaveError.emptySelection))
  ∧ (s.usbl_df.filter (regionMask w) ≠ [] → (py_strip name).isEmpty = true →
      save_annotation_step s w name notes = (s, some SaveError.invalidName))
  ∧ (∀ e : SaveError, (save_annotation_step s w name notes).2 = some e →
      (save_annotation_step s w name notes).1 = s) := by
  rcases hF : s.usbl_df.filter (regionMask w) with _ | ⟨s0, rest⟩
  · refine ⟨fun _ => ?_, fun hne _ => absurd rfl hne, fun e _ => ?_⟩ <;>
      simp [save_annotation_step, save_annotation, hF]
  · by_cases hN : (py_strip name).isEmpty
    · refine ⟨fun hc => by simp at hc, fun _ _ => ?_, fun e _ => ?_⟩ <;>
        simp [save_annotation_step, save_annotation, hF, hN]
    · refine ⟨fun hc => by simp at hc, fun _ hc => absurd hc hN,
        fun e he => ?_⟩
      simp [save_annotation_step, save_annotation, hF, hN] at he

theorem save_failure_witness :
    save_annotation_step (initState [] none 0) { min_time := 0, max_time := 1 }
      ("x") ("") = (initState [] none 0, some SaveError.emptySelection) :=
  (save_failure_paths_leave_registry_unchanged (initState [] none 0)
    { min_time := 0, max_time := 1 } ("x") ("")).1 rfl

/-- C10: saving an annotation is independent of the beacon-filter selection —
two states differing only in the selected beacon produce the same outcome
(same error, or same matched count, coordinates, id and registry contents),
because `save_annotation` filters by the time window alone; by contrast the
interactive highlight of `on_region_changed` does apply the beacon filter, so
it can differ between the two states. -/
theorem save_independent_of_beacon_filter (s : AppState) (f1 f2 : Option String)
    (w : Window) (name notes : String) :
    saveOutcome ( save_annotation { s with beacon_filter := f1 } w name notes)
      = saveOutcome ( save_annotation { s with beacon_filter := f2 } w name notes)
  ∧ (∃ s2 : AppState, ∃ g1 g2 : Option String, ∃ w2 : Window,
      highlightSelection { s2 with beacon_filter := g1 } w2
        ≠ highlightSelection { s2 with beacon_filter := g2 } w2) := by
  constructor
  · rcases hF : s.usbl_df.filter (regionMask w) with _ | ⟨s0, rest⟩ <;>
      by_cases hN : (py_strip name).isEmpty <;>
        simp [ save_annotation, saveOutcome, Except.map, hF, hN]
  · refine ⟨initState [posRecord 0 0 0 (some ("x"))] none 0,
      none, some ("y"), { min_time := 0, max_time := 0 }, ?_⟩
    decide

/-- C6: the projection context derivation fails — with control returned to the
caller rather than the process aborting — exactly when the record set is empty
(no first coordinate to derive a zone from) or a required coordinate column is
missing, and each such failure carries the specific condition. -/
theorem projection_failure_paths (t : RawUsblTable)
    (hlen : t.latitudes.length = t.longitudes.length) :
    (isExceptError (convert_to_utm t) = true ↔
      (t.hasLongitude = false ∨ t.hasLatitude = false ∨ t.longitudes = []))
  ∧ (t.hasLongitude = false →
      convert_to_utm t = Except.error (ProjectionError.missingColumn ("longitude_deg")))
  ∧ (t.hasLongitude = true → t.longitudes = [] →
      convert_to_utm t = Except.error ProjectionError.emptyInput)
  ∧ (t.hasLongitude = true → t.longitudes ≠ [] → t.hasLatitude = false →
      convert_to_utm t = Except.error (ProjectionError.missingColumn ("latitude_deg"))) := by
  rcases t with ⟨hLon, hLat, lons, lats⟩
  cases hLon <;> cases hLat <;> rcases lons with _ | ⟨lon, lons⟩ <;>
    rcases lats with _ | ⟨lat, lats⟩ <;>
      simp_all [convert_to_utm, isExceptError]

theorem projection_failure_witness :
    convert_to_utm (rawTable true true [] []) = Except.error ProjectionError.emptyInput :=
  (projection_failure_paths (rawTable true true [] []) rfl).2.2.1 rfl rfl

/-- C8: for a first-record longitude in `[-180, 180)` the zone computed by
`convert_to_utm` equals `floor((lon + 180) / 6) + 1` (Python `int()` truncation
coincides with floor on this range) and lies in `[1, 60]`, and the hemisphere
is north exactly when the first record's latitude is nonnegative. -/
theorem utm_zone_formula (lon lat : ℚ) (h1 : -180 ≤ lon) (h2 : lon < 180) :
    utm_zone_of lon = ⌊(lon + 180) / 6⌋ + 1
  ∧ 1 ≤ utm_zone_of lon ∧ utm_zone_of lon ≤ 60
  ∧ (hemisphere_of lat = true ↔ 0 ≤ lat)
  ∧ (∀ ls las : List ℚ,
      convert_to_utm (rawTable true true (lon :: ls) (lat :: las))
        = Except.ok (utm_zone_of lon, hemisphere_of lat)) := by
  have hq : (0 : ℚ) ≤ (lon + 180) / 6 := by
    apply div_nonneg _ (by norm_num)
    linarith
  have hfloor : utm_zone_of lon = ⌊(lon + 180) / 6⌋ + 1 := by
    simp [utm_zone_of, pyInt, if_pos hq]
  refine ⟨hfloor, ?_, ?_, by simp [hemisphere_of],
    fun ls las => by simp [convert_to_utm, rawTable]⟩
  · rw [hfloor]
    have h0 : (0 : ℤ) ≤ ⌊(lon + 180) / 6⌋ := Int.floor_nonneg.mpr hq
    omega
  · rw [hfloor]
    have hlt : (lon + 180) / 6 < 60 := by
      rw [div_lt_iff₀ (by norm_num : (0 : ℚ) < 6)]
      linarith
    have h60 : ⌊(lon + 180) / 6⌋ < (60 : ℤ) := Int.floor_lt.mpr (by exact_mod_cast hlt)
    omega

theorem utm_zone_formula_witness :
    utm_zone_of (-73.5 : ℚ) = 18
  ∧ (utm_zone_of (-73.5 : ℚ) = ⌊((-73.5 : ℚ) + 180) / 6⌋ + 1
  ∧ 1 ≤ utm_zone_of (-73.5 : ℚ) ∧ utm_zone_of (-73.5 : ℚ) ≤ 60
  ∧ (hemisphere_of (5 : ℚ) = true ↔ 0 ≤ (5 : ℚ))
  ∧ (∀ ls las : List ℚ,
      convert_to_utm (rawTable true true ((-73.5 : ℚ) :: ls) ((5 : ℚ) :: las))
        = Except.ok (utm_zone_of (-73.5 : ℚ), hemisphere_of (5 : ℚ)))) :=
  ⟨by norm_num [utm_zone_of, pyInt],
    utm_zone_formula (-73.5) 5 (by norm_num) (by norm_num)⟩

/-- C4 is false as stated: over the unsorted `c4Table` (rows at timestamps 10
then 0, both matched), `save_annotation` takes the start coordinates from the
first matching row in table order (easting 100, at timestamp 10), whereas the
first matching record ordered by timestamp is the row with easting 200 (at
timestamp 0). -/
theorem save_coords_not_timestamp_ordered_cex :
    (( save_annotation c4State c4Window ("a") ("")).map (fun p => p.2.start_easting)
        = Except.ok (100 : ℚ))
  ∧ (firstMatchedByTimestamp c4State.usbl_df c4Window).map PosRecord.easting
        = some (200 : ℚ)
  ∧ (100 : ℚ) ≠ (200 : ℚ) :=
  ⟨rfl, rfl, by norm_num⟩

/-- C4 (amended): on a successful save, the annotation's start/end times are
the window endpoints verbatim, its count is the number of matching records,
and its start/end geodetic and projected coordinates come from the first and
last matching record in table (row) order — which equals timestamp order only
when the table is time-sorted. -/
theorem save_coords_row_order (s : AppState) (w : Window) (name notes : String)
    (res : AppState × Annotation)
    (h : save_annotation s w name notes = Except.ok res) :
    res.2.start_datetime = w.min_time
  ∧ res.2.end_datetime = w.max_time
  ∧ res.2.num_usbl_points = (s.usbl_df.filter (regionMask w)).length
  ∧ (s.usbl_df.filter (regionMask w)).head?.map PosRecord.easting
      = some res.2.start_easting
  ∧ (s.usbl_df.filter (regionMask w)).head?.map PosRecord.northing
      = some res.2.start_northing
  ∧ (s.usbl_df.filter (regionMask w)).head?.map PosRecord.latitude
      = some res.2.start_lat
  ∧ (s.usbl_df.filter (regionMask w)).head?.map PosRecord.longitude
      = some res.2.start_lon
  ∧ (s.usbl_df.filter (regionMask w)).getLast?.map PosRecord.easting
      = some res.2.end_easting
  ∧ (s.usbl_df.filter (regionMask w)).getLast?.map PosRecord.northing
      = some res.2.end_northing
  ∧ (s.usbl_df.filter (regionMask w)).getLast?.map PosRecord.latitude
      = some res.2.end_lat
  ∧ (s.usbl_df.filter (regionMask w)).getLast?.map PosRecord.longitude
      = some res.2.end_lon := by
  rcases hF : s.usbl_df.filter (regionMask w) with _ | ⟨s0, rest⟩
  · simp [ save_annotation, hF] at h
  · by_cases hN : (py_strip name).isEmpty
    · simp [ save_annotation, hF, hN] at h
    · simp [ save_annotation, hF, hN] at h
      subst h
      refine ⟨rfl, rfl, by simp, ?_, ?_, ?_, ?_, ?_, ?_, ?_, ?_⟩ <;>
        simp [List.getLast?_eq_getLast]

theorem save_coords_row_order_witness :
    c4Ann.start_datetime = c4Window.min_time
  ∧ c4Ann.end_datetime = c4Window.max_time
  ∧ c4Ann.num_usbl_points = (c4State.usbl_df.filter (regionMask c4Window)).length
  ∧ (c4State.usbl_df.filter (regionMask c4Window)).head?.map PosRecord.easting
      = some c4Ann.start_easting
  ∧ (c4State.usbl_df.filter (regionMask c4Window)).head?.map PosRecord.northing
      = some c4Ann.start_northing
  ∧ (c4State.usbl_df.filter (regionMask c4Window)).head?.map PosRecord.latitude
      = some c4Ann.start_lat
  ∧ (c4State.usbl_df.filter (regionMask c4Window)).head?.map PosRecord.longitude
      = some c4Ann.start_lon
  ∧ (c4State.usbl_df.filter (regionMask c4Window)).getLast?.map PosRecord.easting
      = some c4Ann.end_easting
  ∧ (c4State.usbl_df.filter (regionMask c4Window)).getLast?.map PosRecord.northing
      = some c4Ann.end_northing
  ∧ (c4State.usbl_df.filter (regionMask c4Window)).getLast?.map PosRecord.latitude
      = some c4Ann.end_lat
  ∧ (c4State.usbl_df.filter (regionMask c4Window)).getLast?.map PosRecord.longitude
      = some c4Ann.end_lon :=
  save_coords_row_order c4State c4Window ("a") ("") (c4ResState, c4Ann) rfl

lemma find_map_overwrite (nm : String) (v : List Bool) :
    ∀ cols : List (String × List Bool),
      cols.any (fun c => decide (c.1 = nm)) = true →
      (cols.map (fun c => if c.1 = nm then (nm, v) else c)).find?
          (fun c => decide (c.1 = nm)) = some (nm, v) := by
  intro cols
  induction cols with
  | nil => simp
  | cons c cs ih =>
    intro h
    by_cases hc : c.1 = nm
    · simp [hc]
    · have hcs : cs.any (fun c => decide (c.1 = nm)) = true := by
        simpa [hc] using h
      simp [hc, ih hcs]

lemma getCol_setCol_same (cols : List (String × List Bool)) (nm : String)
    (v : List Bool) :
    getCol (setCol cols nm v) nm = some v := by
  unfold setCol
  by_cases hA : cols.any (fun c => decide (c.1 = nm)) = true
  · rw [if_pos hA, getCol, find_map_overwrite nm v cols hA]
    rfl
  · rw [if_neg hA]
    have hnone : cols.find? (fun c => decide (c.1 = nm)) = none := by
      rw [List.find?_eq_none]
      intro x hx hpx
      exact hA (List.any_eq_true.mpr ⟨x, hx, hpx⟩)
    simp [getCol, List.find?_append, hnone]

lemma find_map_preserve (nm nm2 : String) (v : List Bool) (h : nm2 ≠ nm) :
    ∀ cols : List (String × List Bool),
      (cols.map (fun c => if c.1 = nm then (nm, v) else c)).find?
          (fun c => decide (c.1 = nm2))
        = cols.find? (fun c => decide (c.1 = nm2)) := by
  intro cols
  induction cols with
  | nil => simp
  | cons c cs ih =>
    by_cases hc : c.1 = nm <;> by_cases hc2 : c.1 = nm2
    · exact absurd (hc.symm.trans hc2) (Ne.symm h)
    · simp only [List.map_cons, if_pos hc]
      rw [List.find?_cons_of_neg, List.find?_cons_of_neg]
      · exact ih
      · simp [hc2]
      · simp [Ne.symm h]
    · simp only [List.map_cons, if_neg hc]
      rw [List.find?_cons_of_pos, List.find?_cons_of_pos] <;> simp [hc2]
    · simp only [List.map_cons, if_neg hc]
      rw [List.find?_cons_of_neg, List.find?_cons_of_neg]
      · exact ih
      · simp [hc2]
      · simp [hc2]

lemma getCol_setCol_ne (cols : List (String × List Bool)) (nm nm2 : String)
    (v : List Bool) (h : nm2 ≠ nm) :
    getCol (setCol cols nm v) nm2 = getCol cols nm2 := by
  unfold setCol
  by_cases hA : cols.any (fun c => decide (c.1 = nm)) = true
  · rw [if_pos hA]
    unfold getCol
    rw [find_map_preserve nm nm2 v h cols]
  · rw [if_neg hA]
    unfold getCol
    rw [List.find?_append]
    have h2 : List.find? (fun c => decide (c.1 = nm2)) [(nm, v)] = none := by
      simp [Ne.symm h]
    simp [h2]

lemma getCol_addCols (usbl : List PosRecord) (nm : String) :
    ∀ (anns : List Annotation) (init : List (String × List Bool)),
      getCol (anns.foldl
          (fun cols a => setCol cols a.annotation_name (tagColumn a usbl)) init) nm
        = (match (anns.filter (fun a => decide (a.annotation_name = nm))).getLast? with
            | some a => some (tagColumn a usbl)
            | none => getCol init nm) := by
  intro anns
  induction anns with
  | nil => intro init; simp
  | cons a as ih =>
    intro init
    by_cases ha : a.annotation_name = nm
    · subst ha
      rw [List.foldl_cons, ih]
      rcases hL : (as.filter
          (fun b => decide (b.annotation_name = a.annotation_name))).getLast? with _ | b <;>
        simp [List.filter_cons, List.getLast?_cons, hL, getCol_setCol_same]
    · rw [List.foldl_cons, ih]
      have hfilter : (a :: as).filter (fun b => decide (b.annotation_name = nm))
          = as.filter (fun b => decide (b.annotation_name = nm)) := by
        simp [List.filter_cons, ha]
      rcases hL : (as.filter (fun b => decide (b.annotation_name = nm))).getLast? with _ | b <;>
        simp [hfilter, hL, getCol_setCol_ne init a.annotation_name nm _ (Ne.symm ha)]

/-- C1: whenever export succeeds, each annotation whose name is unique in the
registry contributes a boolean column over the full position table whose value
at each record is true exactly when the record's timestamp lies in
`[start_datetime, end_datetime]` inclusive — with no reference to the beacon
filter, which the export transform provably ignores.  Columns of distinct
annotations are independent, so a record inside two overlapping annotation
windows is true in both columns. -/
theorem export_column_inclusive_membership (s : AppState) (out : ExportOut)
    (hout : export_annotated_data s = Except.ok out)
    (a : Annotation) (j : ℕ) (r : PosRecord)
    (hname : s.annotations.filter
        (fun b => decide (b.annotation_name = a.annotation_name)) = [a])
    (hr : s.usbl_df[j]? = some r) :
    ∃ col : List Bool,
      getCol out.tagged_cols a.annotation_name = some col
      ∧ col[j]? = some (decide (a.start_datetime ≤ r.datetime
          ∧ r.datetime ≤ a.end_datetime))
      ∧ (∀ f : Option String,
          export_annotated_data { s with beacon_filter := f }
            = export_annotated_data s) := by
  have hne : s.annotations ≠ [] := by
    intro h0
    rw [h0] at hname
    simp at hname
  have hEmpty : s.annotations.isEmpty = false := by
    cases h0 : s.annotations with
    | nil => exact absurd h0 hne
    | cons x xs => simp [h0]
  simp [export_annotated_data, hEmpty] at hout
  subst hout
  refine ⟨tagColumn a s.usbl_df, ?_, ?_, fun f => rfl⟩
  · have h := getCol_addCols s.usbl_df a.annotation_name s.annotations []
    rw [hname] at h
    simpa [addAnnotationCols] using h
  · simp [tagColumn, hr]

theorem export_column_inclusive_membership_witness :
    ∃ col : List Bool,
      getCol c1Out.tagged_cols c1AnnA.annotation_name = some col
      ∧ col[0]? = some (decide (c1AnnA.start_datetime ≤ c1Rec.datetime
          ∧ c1Rec.datetime ≤ c1AnnA.end_datetime))
      ∧ (∀ f : Option String,
          export_annotated_data { c1State with beacon_filter := f }
            = export_annotated_data c1State) :=
  export_column_inclusive_membership c1State c1Out rfl c1AnnA 0 c1Rec (by decide) rfl

/-- C7 is false as stated for the repository's `DualDataViewer` export path:
exporting `c7Dual` (one saved region, untagged stored tables) runs
`tag_data_with_regions`, which assigns a `region_r` boolean column onto the
stored position (and sensor) table itself, so the application state after the
export differs from the state before it. -/
theorem export_mutates_dual_viewer_tables_cex :
    (export_data c7Dual).1 ≠ c7Dual := by
  decide

/-- C7 (amended): in `DredgeApp`, `export_annotated_data` leaves the stored
state unchanged and the returned tagged table is a copy of the full stored
position table, with the annotation columns added only to that copy; in the
legacy `DualDataViewer`, `export_data` instead tags the stored tables in place
via `tag_data_with_regions` whenever at least one region is saved. -/
theorem export_copy_semantics_by_app (s : AppState) (ds : DualViewerState) :
    (export_annotated_data_step s).1 = s
  ∧ (∀ out : ExportOut, export_annotated_data s = Except.ok out →
      out.tagged_rows = s.usbl_df)
  ∧ (ds.selected_regions ≠ [] → (export_data ds).1 = tag_data_with_regions ds) := by
  refine ⟨rfl, ?_, ?_⟩
  · intro out hout
    by_cases hA : s.annotations.isEmpty
    · simp [export_annotated_data, hA] at hout
    · simp [export_annotated_data, hA] at hout
      rw [← hout]
  · intro hne
    have hE : ds.selected_regions.isEmpty = false := by
      cases h0 : ds.selected_regions with
      | nil => exact absurd h0 hne
      | cons x xs => simp [h0]
    simp [export_data, hE]

theorem export_copy_semantics_witness :
    (export_annotated_data_step c1State).1 = c1State
  ∧ (export_data c7Dual).1 = tag_data_with_regions c7Dual :=
  ⟨(export_copy_semantics_by_app c1State c7Dual).1,
    (export_copy_semantics_by_app c1State c7Dual).2.2 (by decide)⟩

/-- C9: with both linked regions unblocked, a user move of either region
copies its bounds onto the sibling and triggers exactly one membership
recomputation (`on_region_changed`); the `blockSignals` guard in
`_sync_regions` keeps the propagated `setRegion` from re-triggering the
mover's handler, so the dispatch terminates with the same result at every
sufficient recursion bound — there is no re-entrant or infinite mutual
update. -/
theorem region_sync_no_feedback_loop (st : SyncState) (t : Bool) (lo hi : ℚ)
    (fuel : ℕ) (hb1 : st.region_1.blocked = false)
    (hb2 : st.region_2.blocked = false) (hf : 3 ≤ fuel) :
    userDragRegion fuel t lo hi st
      = some { region_1 := { lo := lo, hi := hi, blocked := false },
               region_2 := { lo := lo, hi := hi, blocked := false },
               recompute_count := st.recompute_count + 1 } := by
  obtain ⟨k, rfl⟩ : ∃ k, fuel = k + 3 := ⟨fuel - 3, by omega⟩
  cases t <;> simp [userDragRegion, dispatchEvent, hb1, hb2]

theorem region_sync_witness :
    userDragRegion 3 true 5 6 c9Sync
      = some { region_1 := { lo := 5, hi := 6, blocked := false },
               region_2 := { lo := 5, hi := 6, blocked := false },
               recompute_count := 1 } :=
  region_sync_no_feedback_loop c9Sync true 5 6 3 rfl rfl (by norm_num)
